import Mathlib

/-!
Shallow embedding of `bindings/python/cntk/contrib/deepRL/agent/agent.py`
(class `AgentBaseClass`): observation-space classification and validation,
input-shape derivation, retroactive discretization of Box spaces, and the
observation preprocessing pipeline (`_preprocess`).

Conventions of the embedding:
* `gym.spaces` descriptors become the tagged union `Space`.
* numpy arrays become `NpArray`: a dtype tag, a shape, and flat data stored
  as exact rationals.  `astype` changes only the dtype tag: the only casts
  the source performs (`uint8 -> int`, and `float64 -> float32` on values
  that are produced as 0.0 / 1.0 one-hot entries or pass through untouched)
  are value-exact, so carrying exact rationals loses nothing the source
  distinguishes.
* a Python method that can raise returns `Except PyError _` when no caller
  observes the post-exception object state, and `_ × Option PyError` when
  the claim under study is about the state left behind by the exception.
-/

namespace CNTKDeepRL

/-- `gym.spaces` descriptors as used by `agent.py`: `Discrete n` carries its
cardinality `n`, `MultiBinary n` its width `n`, `Box` and `MultiDiscrete`
their native `shape`; `TupleSpace` is the composite space the source
documents as unsupported. -/
inductive Space where
  | Discrete (n : Nat)
  | MultiBinary (n : Nat)
  | Box (shape : List Nat)
  | MultiDiscrete (shape : List Nat)
  | TupleSpace (fst snd : Space)
deriving DecidableEq, Repr

/-- Numpy dtype tags distinguished by `_preprocess`: `uint8`, the generic
integer type produced by `astype(int)`, `float32`, `float64`, and an
opaque tag for every other dtype. -/
inductive DType where
  | uint8
  | intDefault
  | float32
  | float64
  | other (name : String)
deriving DecidableEq, Repr

/-- A numpy array: dtype tag, shape, and flat data as exact rationals. -/
structure NpArray where
  dtype : DType
  shape : List Nat
  data : List Rat
deriving DecidableEq, Repr

/-- A Python value flowing through `_preprocess`: either a scalar state
index or a numpy array. -/
inductive Value where
  | scalar (i : Int)
  | array (a : NpArray)
deriving DecidableEq, Repr

/-- The exceptions the embedded code can raise.  The three `ValueError`s of
`agent.py` are distinguished by their message (action-space check at
construction, observation-space check at construction, non-Box space given
to `_discretize_observation_space`); `indexError` is numpy's out-of-bounds
`IndexError` on `a[index] = 1`; `typeError` is `np.zeros(None,)`;
`attributeError` is `.dtype` on a non-array. -/
inductive PyError where
  | invalidActionSpace (a_space : Space)
  | unsupportedObservationSpace (o_space : Space)
  | unsupportedDiscretizationSpace (space : Space)
  | indexError
  | typeError
  | attributeError
deriving DecidableEq, Repr

/-- `np.zeros(dimension,)`: a fresh float64 vector of `dimension` zeros. -/
def npZeros (dimension : Nat) : NpArray :=
  { dtype := .float64, shape := [dimension], data := List.replicate dimension 0 }

/-- Numpy item assignment `a[index] = v` on a 1-D array: a non-negative
index must be below the length, a negative index counts from the end
(`-1` is the last entry), anything else raises `IndexError`. -/
def npSetItem (a : NpArray) (index : Int) (v : Rat) : Except PyError NpArray :=
  let n : Int := a.data.length
  if 0 ≤ index ∧ index < n then
    .ok { a with data := a.data.set index.toNat v }
  else if -n ≤ index ∧ index < 0 then
    .ok { a with data := a.data.set (n + index).toNat v }
  else
    .error .indexError

/-- `astype`: in this embedding a pure dtype retag (see the header note on
value-exactness of the casts the source performs). -/
def npAstype (a : NpArray) (d : DType) : NpArray :=
  { a with dtype := d }

/-- Modelled from the spec: `BoxSpaceDiscretizer` lives in
`.shared.discretize`, which is not under src/.  The spec says only that it
maps continuous values to a finite index space and owns its resolution
parameter; the source comment adds that the converted state takes values
from 0 to n - 1.  We keep it abstract: a state count and a conversion
function to an index. -/
structure BoxSpaceDiscretizer where
  num_states : Nat
  discretize : Value → Int

namespace AgentBaseClass

/-- The observation-related configuration fields of `AgentBaseClass`
(`_num_actions`, `_space_discretizer`, `_discrete_observation_space`,
`_num_states`, `_shape_of_inputs`, `_preprocessor`). -/
structure Config where
  num_actions : Nat
  space_discretizer : Option BoxSpaceDiscretizer
  discrete_observation_space : Bool
  num_states : Option Nat
  shape_of_inputs : List Nat
  preprocessor : Option (Value → Value)

/-- Lines 43-46: the observation-space tags `AgentBaseClass.__init__`
accepts (`Discrete`, `MultiBinary`, `Box`, `MultiDiscrete`). -/
def supportedObservationSpace : Space → Bool
  | .Discrete _ => true
  | .MultiBinary _ => true
  | .Box _ => true
  | .MultiDiscrete _ => true
  | _ => false

/-- `AgentBaseClass.__init__(o_space, a_space)`, lines 14-66: reject a
non-Discrete action space, reject an unsupported observation space, then
derive `_discrete_observation_space`, `_num_states` (`o_space.n` when
discrete, else `None`) and `_shape_of_inputs` (`(o_space.n,)` for
Discrete/MultiBinary, `o_space.shape` for Box/MultiDiscrete);
`_space_discretizer` and `_preprocessor` start as `None`. -/
def init (o_space a_space : Space) : Except PyError Config :=
  match a_space with
  | .Discrete a_n =>
    match o_space with
    | .Discrete n =>
      .ok { num_actions := a_n, space_discretizer := none,
            discrete_observation_space := true, num_states := some n,
            shape_of_inputs := [n], preprocessor := none }
    | .MultiBinary n =>
      .ok { num_actions := a_n, space_discretizer := none,
            discrete_observation_space := false, num_states := none,
            shape_of_inputs := [n], preprocessor := none }
    | .Box shape =>
      .ok { num_actions := a_n, space_discretizer := none,
            discrete_observation_space := false, num_states := none,
            shape_of_inputs := shape, preprocessor := none }
    | .MultiDiscrete shape =>
      .ok { num_actions := a_n, space_discretizer := none,
            discrete_observation_space := false, num_states := none,
            shape_of_inputs := shape, preprocessor := none }
    | s => .error (.unsupportedObservationSpace s)
  | a => .error (.invalidActionSpace a)

/-- `_discretize_observation_space(space, discretization_resolution)`,
lines 125-135.  The construction of the external `BoxSpaceDiscretizer` is
passed in as `mk` (its code is not under src/); `Res` is the type of the
resolution argument.  On a Box space all four fields are assigned; on any
other space a `ValueError` is raised before any assignment, so the
returned configuration is the input one. -/
def discretizeObservationSpace {Res : Type}
    (mk : Space → Res → BoxSpaceDiscretizer)
    (cfg : Config) (space : Space) (discretization_resolution : Res) :
    Config × Option PyError :=
  match space with
  | .Box shape =>
    let d := mk (.Box shape) discretization_resolution
    ({ cfg with space_discretizer := some d,
                discrete_observation_space := true,
                num_states := some d.num_states,
                shape_of_inputs := [d.num_states] }, none)
  | s => (cfg, some (.unsupportedDiscretizationSpace s))

/-- `_discretize_state_if_necessary(state)`, lines 137-141. -/
def discretizeStateIfNecessary (cfg : Config) (state : Value) : Value :=
  match cfg.space_discretizer with
  | some d => .scalar (d.discretize state)
  | none => state

/-- `_index_to_vector(index, dimension)`, lines 143-147:
`a = np.zeros(dimension,); a[index] = 1; return a`. -/
def indexToVector (index : Int) (dimension : Nat) : Except PyError NpArray :=
  npSetItem (npZeros dimension) index 1

/-- Stage 2 of `_preprocess` (lines 161-162): when the observation space is
classified discrete, one-hot encode the scalar index through
`_index_to_vector(o, self._num_states)`.  A `None` `_num_states` would make
`np.zeros(None,)` raise `TypeError`; a non-scalar `o` is outside the
documented discrete case ("State is represented by a scalar") and is not
given numpy fancy-indexing semantics here. -/
def oneHotStage (cfg : Config) (o : Value) : Except PyError Value :=
  if cfg.discrete_observation_space then
    match o with
    | .scalar i =>
      match cfg.num_states with
      | some n => Value.array <$> indexToVector i n
      | none => .error .typeError
    | .array _ => .error .typeError
  else
    pure o

/-- Stage 3 of `_preprocess` (lines 163-164): apply the external
preprocessor when one is attached. -/
def preprocessorStage (cfg : Config) (o : Value) : Value :=
  match cfg.preprocessor with
  | some p => p o
  | none => o

/-- Stage 4 of `_preprocess` (lines 165-172): dtype normalization.
`uint8` arrays are `astype(int)`, `float64` arrays are
`astype(np.float32)`, everything else is returned as is; reading `.dtype`
off a non-array raises `AttributeError`. -/
def dtypeStage (o : Value) : Except PyError NpArray :=
  match o with
  | .array a =>
    if a.dtype = .uint8 then .ok (npAstype a .intDefault)
    else if a.dtype = .float64 then .ok (npAstype a .float32)
    else .ok a
  | .scalar _ => .error .attributeError

/-- `_preprocess(state)`, lines 149-172: discretize if necessary, one-hot
encode if the observation space is classified discrete, apply the external
preprocessor if attached, then normalize the dtype. -/
def preprocess (cfg : Config) (state : Value) : Except PyError NpArray := do
  let o := discretizeStateIfNecessary cfg state
  let o ← oneHotStage cfg o
  let o := preprocessorStage cfg o
  dtypeStage o

/-- The configuration invariant of the spec's data model: `_num_states` is
defined iff `_discrete_observation_space` is true, and whenever
`_num_states = n` the input shape is the vector shape `(n,)`. -/
def configInvariant (cfg : Config) : Prop :=
  (cfg.num_states.isSome ↔ cfg.discrete_observation_space = true) ∧
  (∀ k, cfg.num_states = some k → cfg.shape_of_inputs = [k])

end AgentBaseClass

namespace AgentBaseClass

/-! Helper lemmas about the embedded operations, shared by the claim
theorems below. -/

theorem init_discrete (n na : Nat) :
    init (.Discrete n) (.Discrete na) =
      .ok { num_actions := na, space_discretizer := none,
            discrete_observation_space := true, num_states := some n,
            shape_of_inputs := [n], preprocessor := none } := rfl

theorem init_multibinary (n na : Nat) :
    init (.MultiBinary n) (.Discrete na) =
      .ok { num_actions := na, space_discretizer := none,
            discrete_observation_space := false, num_states := none,
            shape_of_inputs := [n], preprocessor := none } := rfl

theorem init_box (sh : List Nat) (na : Nat) :
    init (.Box sh) (.Discrete na) =
      .ok { num_actions := na, space_discretizer := none,
            discrete_observation_space := false, num_states := none,
            shape_of_inputs := sh, preprocessor := none } := rfl

theorem init_multidiscrete (sh : List Nat) (na : Nat) :
    init (.MultiDiscrete sh) (.Discrete na) =
      .ok { num_actions := na, space_discretizer := none,
            discrete_observation_space := false, num_states := none,
            shape_of_inputs := sh, preprocessor := none } := rfl

theorem dtypeStage_array (a : NpArray) :
    ∃ b : NpArray, dtypeStage (.array a) = .ok b ∧
      b.shape = a.shape ∧ b.data = a.data := by
  show ∃ b : NpArray,
    (if a.dtype = .uint8 then Except.ok (npAstype a .intDefault)
     else if a.dtype = .float64 then Except.ok (npAstype a .float32)
     else Except.ok a) = .ok b ∧ b.shape = a.shape ∧ b.data = a.data
  by_cases h1 : a.dtype = .uint8
  · exact ⟨npAstype a .intDefault, by rw [if_pos h1], rfl, rfl⟩
  · by_cases h2 : a.dtype = .float64
    · exact ⟨npAstype a .float32, by rw [if_neg h1, if_pos h2], rfl, rfl⟩
    · exact ⟨a, by rw [if_neg h1, if_neg h2], rfl, rfl⟩

theorem npSetItem_dtype_shape (a : NpArray) (i : Int) (v : Rat) (b : NpArray)
    (h : CNTKDeepRL.npSetItem a i v = .ok b) :
    b.dtype = a.dtype ∧ b.shape = a.shape := by
  simp only [npSetItem] at h
  split at h
  · cases h; exact ⟨rfl, rfl⟩
  · split at h
    · cases h; exact ⟨rfl, rfl⟩
    · cases h

theorem indexToVector_in_range (i : Int) (n : Nat) (h0 : 0 ≤ i) (hn : i < (n : Int)) :
    indexToVector i n =
      .ok { dtype := .float64, shape := [n],
            data := (List.replicate n 0).set i.toNat 1 } := by
  unfold indexToVector npSetItem npZeros
  simp only [List.length_replicate]
  rw [if_pos ⟨h0, hn⟩]

theorem indexToVector_neg (i : Int) (n : Nat) (hlo : -(n : Int) ≤ i) (hhi : i < 0) :
    indexToVector i n =
      .ok { dtype := .float64, shape := [n],
            data := (List.replicate n 0).set ((n : Int) + i).toNat 1 } := by
  unfold indexToVector npSetItem npZeros
  simp only [List.length_replicate]
  rw [if_neg (fun hc => absurd hhi (not_lt.2 hc.1)), if_pos ⟨hlo, hhi⟩]

theorem indexToVector_oob (i : Int) (n : Nat)
    (h : i < -(n : Int) ∨ (n : Int) ≤ i) :
    indexToVector i n = .error .indexError := by
  unfold indexToVector npSetItem npZeros
  simp only [List.length_replicate]
  rw [if_neg (by omega), if_neg (by omega)]

theorem oneHotData_length (n pos : Nat) :
    ((List.replicate n (0 : Rat)).set pos 1).length = n := by simp

theorem oneHotData_self (n pos : Nat) (h : pos < n) :
    ((List.replicate n (0 : Rat)).set pos 1)[pos]? = some 1 :=
  List.getElem?_set_eq_of_lt 1 (by simpa using h)

theorem oneHotData_other (n pos j : Nat) (hj : j < n) (hne : j ≠ pos) :
    ((List.replicate n (0 : Rat)).set pos 1)[j]? = some 0 := by
  rw [List.getElem?_set_ne (fun hc => hne hc.symm)]
  rw [List.getElem?_eq_getElem (by simpa using hj)]
  simp

theorem preprocess_init_discrete (n na : Nat) (i : Int) (cfg : Config)
    (hcfg : init (.Discrete n) (.Discrete na) = .ok cfg) :
    preprocess cfg (.scalar i) =
      (indexToVector i n).map (fun a => CNTKDeepRL.npAstype a .float32) := by
  rw [init_discrete] at hcfg
  cases hcfg
  cases hv : indexToVector i n with
  | error e =>
    simp [preprocess, discretizeStateIfNecessary, oneHotStage,
      preprocessorStage, hv, Except.map, bind, Except.bind]
  | ok a =>
    have hda : a.dtype = .float64 :=
      (npSetItem_dtype_shape (npZeros n) i 1 a hv).1
    simp [preprocess, discretizeStateIfNecessary, oneHotStage,
      preprocessorStage, dtypeStage, hv, hda, Except.map, bind, Except.bind]

/-- Claim C1: for an agent whose observation space is discrete with
cardinality `n`, `_preprocess` applied to an observation index `i`
(a valid index of the space, `0 <= i < n`) returns a vector of length `n`
with exactly one entry equal to 1, located at position `i`, and 0
everywhere else. -/
theorem C1_preprocess_one_hot (n na : Nat) (i : Int) (cfg : Config)
    (hcfg : init (.Discrete n) (.Discrete na) = .ok cfg)
    (h0 : 0 ≤ i) (hn : i < (n : Int)) :
    ∃ a : NpArray, preprocess cfg (.scalar i) = .ok a ∧
      a.shape = [n] ∧ a.data.length = n ∧
      a.data[i.toNat]? = some 1 ∧
      ∀ j : Nat, j < n → j ≠ i.toNat → a.data[j]? = some 0 := by
  refine ⟨{ dtype := .float32, shape := [n],
            data := (List.replicate n 0).set i.toNat 1 }, ?_, rfl, ?_, ?_, ?_⟩
  · rw [preprocess_init_discrete n na i cfg hcfg, indexToVector_in_range i n h0 hn]
    rfl
  · exact oneHotData_length n i.toNat
  · exact oneHotData_self n i.toNat (by omega)
  · exact fun j hj hne => oneHotData_other n i.toNat j hj hne

theorem C1_preprocess_one_hot_witness :
    ∃ a : NpArray,
      preprocess
        { num_actions := 2, space_discretizer := none,
          discrete_observation_space := true, num_states := some 3,
          shape_of_inputs := [3], preprocessor := none } (.scalar 1) = .ok a ∧
      a.shape = [3] ∧ a.data.length = 3 ∧
      a.data[(1 : Int).toNat]? = some 1 ∧
      ∀ j : Nat, j < 3 → j ≠ (1 : Int).toNat → a.data[j]? = some 0 :=
  C1_preprocess_one_hot 3 2 1
    { num_actions := 2, space_discretizer := none,
      discrete_observation_space := true, num_states := some 3,
      shape_of_inputs := [3], preprocessor := none }
    rfl (by decide) (by decide)

/-- Claim C9: for a discrete observation space of cardinality `n`, the
one-hot guarantee of `_preprocess` needs `0 <= i < n`: an index with
`-n <= i < 0` silently wraps around (numpy negative indexing) and puts
the single 1 at position `n + i`, while an index outside `[-n, n)` makes
the one-hot write raise `IndexError` instead of returning a vector. -/
theorem C9_preprocess_index_bounds (n na : Nat) (i : Int) (cfg : Config)
    (hcfg : init (.Discrete n) (.Discrete na) = .ok cfg) :
    ((-(n : Int) ≤ i ∧ i < 0) →
      ∃ a : NpArray, preprocess cfg (.scalar i) = .ok a ∧
        a.data.length = n ∧
        a.data[((n : Int) + i).toNat]? = some 1 ∧
        ∀ j : Nat, j < n → j ≠ ((n : Int) + i).toNat → a.data[j]? = some 0) ∧
    ((i < -(n : Int) ∨ (n : Int) ≤ i) →
      preprocess cfg (.scalar i) = .error .indexError) := by
  constructor
  · rintro ⟨hlo, hhi⟩
    refine ⟨{ dtype := .float32, shape := [n],
              data := (List.replicate n 0).set ((n : Int) + i).toNat 1 },
            ?_, ?_, ?_, ?_⟩
    · rw [preprocess_init_discrete n na i cfg hcfg, indexToVector_neg i n hlo hhi]
      rfl
    · exact oneHotData_length n ((n : Int) + i).toNat
    · exact oneHotData_self n ((n : Int) + i).toNat (by omega)
    · exact fun j hj hne => oneHotData_other n ((n : Int) + i).toNat j hj hne
  · intro h
    rw [preprocess_init_discrete n na i cfg hcfg, indexToVector_oob i n h]
    rfl

theorem C9_preprocess_index_bounds_witness :
    (∃ a : NpArray,
      preprocess
        { num_actions := 2, space_discretizer := none,
          discrete_observation_space := true, num_states := some 3,
          shape_of_inputs := [3], preprocessor := none } (.scalar (-1)) = .ok a ∧
      a.data.length = 3 ∧
      a.data[((3 : Int) + -1).toNat]? = some 1 ∧
      ∀ j : Nat, j < 3 → j ≠ ((3 : Int) + -1).toNat → a.data[j]? = some 0) ∧
    preprocess
      { num_actions := 2, space_discretizer := none,
        discrete_observation_space := true, num_states := some 3,
        shape_of_inputs := [3], preprocessor := none } (.scalar 5) =
      .error .indexError :=
  ⟨(C9_preprocess_index_bounds 3 2 (-1)
      { num_actions := 2, space_discretizer := none,
        discrete_observation_space := true, num_states := some 3,
        shape_of_inputs := [3], preprocessor := none } rfl).1 (by decide),
   (C9_preprocess_index_bounds 3 2 5
      { num_actions := 2, space_discretizer := none,
        discrete_observation_space := true, num_states := some 3,
        shape_of_inputs := [3], preprocessor := none } rfl).2 (by decide)⟩

/-- Claim C10: for a discrete observation space with no external
preprocessor attached, the one-hot vector is created by
`_index_to_vector` as a float64 zero vector (`np.zeros`), and the dtype
normalization stage then casts it to float32, so `_preprocess` returns a
float32 array, not an integer one. -/
theorem C10_one_hot_dtype (n na : Nat) (i : Int) (cfg : Config)
    (hcfg : init (.Discrete n) (.Discrete na) = .ok cfg)
    (h0 : 0 ≤ i) (hn : i < (n : Int)) :
    (∃ a : NpArray, indexToVector i n = .ok a ∧ a.dtype = .float64) ∧
    (∃ b : NpArray, preprocess cfg (.scalar i) = .ok b ∧ b.dtype = .float32) := by
  refine ⟨⟨_, indexToVector_in_range i n h0 hn, rfl⟩,
    ⟨{ dtype := .float32, shape := [n],
       data := (List.replicate n 0).set i.toNat 1 }, ?_, rfl⟩⟩
  rw [preprocess_init_discrete n na i cfg hcfg, indexToVector_in_range i n h0 hn]
  rfl

theorem C10_one_hot_dtype_witness :
    (∃ a : NpArray, indexToVector 0 4 = .ok a ∧ a.dtype = .float64) ∧
    (∃ b : NpArray,
      preprocess
        { num_actions := 2, space_discretizer := none,
          discrete_observation_space := true, num_states := some 4,
          shape_of_inputs := [4], preprocessor := none } (.scalar 0) = .ok b ∧
      b.dtype = .float32) :=
  C10_one_hot_dtype 4 2 0
    { num_actions := 2, space_discretizer := none,
      discrete_observation_space := true, num_states := some 4,
      shape_of_inputs := [4], preprocessor := none }
    rfl (by decide) (by decide)

/-- Claim C2: `_preprocess` is exactly the four stages in order:
discretize when a discretizer is attached, one-hot encode when the
observation space is classified discrete, apply the external preprocessor
when one is attached, then normalize the dtype; and for a Box observation
space with no discretizer and no external preprocessor, the array passes
through with its shape (and data) unchanged, so the output shape is the
input shape. -/
theorem C2_preprocess_stages_and_box_passthrough :
    (∀ (cfg : Config) (state : Value),
      preprocess cfg state =
        (oneHotStage cfg (discretizeStateIfNecessary cfg state)).bind
          (fun o => dtypeStage (preprocessorStage cfg o))) ∧
    (∀ (sh : List Nat) (na : Nat) (cfg : Config),
      init (.Box sh) (.Discrete na) = .ok cfg →
      cfg.shape_of_inputs = sh ∧
      ∀ a : NpArray, ∃ b : NpArray,
        preprocess cfg (.array a) = .ok b ∧
        b.shape = a.shape ∧ b.data = a.data) := by
  constructor
  · exact fun cfg state => rfl
  · intro sh na cfg hcfg
    rw [init_box] at hcfg
    cases hcfg
    refine ⟨rfl, fun a => ?_⟩
    obtain ⟨b, hb, hsh, hd⟩ := dtypeStage_array a
    exact ⟨b, hb, hsh, hd⟩

theorem C2_preprocess_stages_and_box_passthrough_witness :
    ∃ b : NpArray,
      preprocess
        { num_actions := 2, space_discretizer := none,
          discrete_observation_space := false, num_states := none,
          shape_of_inputs := [2], preprocessor := none }
        (.array { dtype := .float64, shape := [2], data := [1, 2] }) = .ok b ∧
      b.shape = [2] ∧ b.data = [1, 2] :=
  (C2_preprocess_stages_and_box_passthrough.2 [2] 2
    { num_actions := 2, space_discretizer := none,
      discrete_observation_space := false, num_states := none,
      shape_of_inputs := [2], preprocessor := none } rfl).2
    { dtype := .float64, shape := [2], data := [1, 2] }

/-- Claim C3: construction succeeds exactly when the action space is a
finite discrete set and the observation space tag is one of Discrete,
MultiBinary, Box, MultiDiscrete; a Box action space raises the
invalid-action-space error, and a composite (tuple) observation space
raises the invalid-observation-space error. -/
theorem C3_init_validation :
    (∀ (o_space a_space : Space),
      (∃ cfg : Config, init o_space a_space = .ok cfg) ↔
        ((∃ na, a_space = .Discrete na) ∧
          supportedObservationSpace o_space = true)) ∧
    (∀ (o_space : Space) (sh : List Nat),
      init o_space (.Box sh) = .error (.invalidActionSpace (.Box sh))) ∧
    (∀ (s t : Space) (na : Nat),
      init (.TupleSpace s t) (.Discrete na) =
        .error (.unsupportedObservationSpace (.TupleSpace s t))) := by
  refine ⟨?_, fun o_space sh => rfl, fun s t na => rfl⟩
  intro o a
  constructor
  · rintro ⟨cfg, hcfg⟩
    cases a <;> cases o <;>
      simp_all [init, supportedObservationSpace]
  · rintro ⟨⟨na, rfl⟩, hsup⟩
    cases o <;> first
      | exact ⟨_, rfl⟩
      | simp [supportedObservationSpace] at hsup

/-- Claim C5: the input shape derived at construction is a pure function
of the observation-space descriptor: `(n,)` for Discrete and MultiBinary
of cardinality/width `n`, and the native shape for Box and
MultiDiscrete. -/
theorem C5_input_shape_derivation (n m na : Nat) (sh sh2 : List Nat) :
    (init (.Discrete n) (.Discrete na)).map Config.shape_of_inputs = .ok [n] ∧
    (init (.MultiBinary m) (.Discrete na)).map Config.shape_of_inputs = .ok [m] ∧
    (init (.Box sh) (.Discrete na)).map Config.shape_of_inputs = .ok sh ∧
    (init (.MultiDiscrete sh2) (.Discrete na)).map Config.shape_of_inputs = .ok sh2 :=
  ⟨rfl, rfl, rfl, rfl⟩

/-- Claim C6: in the dtype-normalization stage of `_preprocess`, a uint8
array comes back integer-typed, a float64 array comes back float32, and
an array of any other dtype comes back with its dtype unchanged (shape
and data are untouched in all cases). -/
theorem C6_dtype_normalization (a : NpArray) :
    (a.dtype = .uint8 →
      ∃ b : NpArray, dtypeStage (.array a) = .ok b ∧
        b.dtype = .intDefault ∧ b.shape = a.shape ∧ b.data = a.data) ∧
    (a.dtype = .float64 →
      ∃ b : NpArray, dtypeStage (.array a) = .ok b ∧
        b.dtype = .float32 ∧ b.shape = a.shape ∧ b.data = a.data) ∧
    (a.dtype ≠ .uint8 → a.dtype ≠ .float64 →
      dtypeStage (.array a) = .ok a) := by
  refine ⟨fun h1 => ?_, fun h2 => ?_, fun h1 h2 => ?_⟩
  · exact ⟨npAstype a .intDefault,
      by show (if a.dtype = DType.uint8 then Except.ok (npAstype a .intDefault)
               else if a.dtype = DType.float64 then Except.ok (npAstype a .float32)
               else Except.ok a) = _
         rw [if_pos h1], rfl, rfl, rfl⟩
  · have h1 : a.dtype ≠ .uint8 := by rw [h2]; exact fun hc => DType.noConfusion hc
    exact ⟨npAstype a .float32,
      by show (if a.dtype = DType.uint8 then Except.ok (npAstype a .intDefault)
               else if a.dtype = DType.float64 then Except.ok (npAstype a .float32)
               else Except.ok a) = _
         rw [if_neg h1, if_pos h2], rfl, rfl, rfl⟩
  · show (if a.dtype = DType.uint8 then Except.ok (npAstype a .intDefault)
          else if a.dtype = DType.float64 then Except.ok (npAstype a .float32)
          else Except.ok a) = _
    rw [if_neg h1, if_neg h2]

theorem C6_dtype_normalization_witness :
    (∃ b : NpArray,
      dtypeStage (.array { dtype := .uint8, shape := [1], data := [5] }) = .ok b ∧
      b.dtype = .intDefault ∧
      b.shape = NpArray.shape { dtype := .uint8, shape := [1], data := [5] } ∧
      b.data = NpArray.data { dtype := .uint8, shape := [1], data := [5] }) ∧
    (∃ b : NpArray,
      dtypeStage (.array { dtype := .float64, shape := [1], data := [5] }) = .ok b ∧
      b.dtype = .float32 ∧
      b.shape = NpArray.shape { dtype := .float64, shape := [1], data := [5] } ∧
      b.data = NpArray.data { dtype := .float64, shape := [1], data := [5] }) ∧
    dtypeStage (.array { dtype := .float32, shape := [1], data := [5] }) =
      .ok { dtype := .float32, shape := [1], data := [5] } :=
  ⟨(C6_dtype_normalization { dtype := .uint8, shape := [1], data := [5] }).1 rfl,
   (C6_dtype_normalization { dtype := .float64, shape := [1], data := [5] }).2.1 rfl,
   (C6_dtype_normalization { dtype := .float32, shape := [1], data := [5] }).2.2
     (by decide) (by decide)⟩

/-- Claim C4: `_discretize_observation_space` on a Box space succeeds
(no error), afterwards the observation classification is discrete,
`_num_states` is the discretizer's state count and `_shape_of_inputs` is
`(num_states,)`; and every subsequent `_preprocess` call (no external
preprocessor attached, discretizer yielding an in-range index as its
contract states) returns a one-hot vector of length equal to the
discretizer's state count. -/
theorem C4_discretize_box_then_one_hot {Res : Type}
    (mk : Space → Res → BoxSpaceDiscretizer) (cfg : Config)
    (sh : List Nat) (res : Res) (d : BoxSpaceDiscretizer)
    (hd : mk (.Box sh) res = d) (hp : cfg.preprocessor = none) :
    discretizeObservationSpace mk cfg (.Box sh) res =
      ({ cfg with space_discretizer := some d,
                  discrete_observation_space := true,
                  num_states := some d.num_states,
                  shape_of_inputs := [d.num_states] }, none) ∧
    ∀ (v : Value) (i : Int), d.discretize v = i → 0 ≤ i →
      i < (d.num_states : Int) →
      ∃ a : NpArray,
        preprocess (discretizeObservationSpace mk cfg (.Box sh) res).1 v =
          .ok a ∧
        a.shape = [d.num_states] ∧ a.data.length = d.num_states ∧
        a.data[i.toNat]? = some 1 ∧
        ∀ j : Nat, j < d.num_states → j ≠ i.toNat → a.data[j]? = some 0 := by
  subst hd
  refine ⟨rfl, fun v i hdi h0 hn => ?_⟩
  refine ⟨{ dtype := .float32, shape := [(mk (.Box sh) res).num_states],
            data := (List.replicate (mk (.Box sh) res).num_states 0).set
              i.toNat 1 }, ?_, rfl, ?_, ?_, ?_⟩
  · simp only [discretizeObservationSpace]
    simp [preprocess, discretizeStateIfNecessary, hdi, oneHotStage,
      indexToVector_in_range i (mk (.Box sh) res).num_states h0 hn,
      preprocessorStage, hp, dtypeStage, npAstype, bind, Except.bind]
  · exact oneHotData_length (mk (.Box sh) res).num_states i.toNat
  · exact oneHotData_self (mk (.Box sh) res).num_states i.toNat (by omega)
  · exact fun j hj hne =>
      oneHotData_other (mk (.Box sh) res).num_states i.toNat j hj hne

theorem C4_discretize_box_then_one_hot_witness :
    ∃ a : NpArray,
      preprocess
        (discretizeObservationSpace
          (fun _ _ => { num_states := 2, discretize := fun _ => 1 })
          { num_actions := 2, space_discretizer := none,
            discrete_observation_space := false, num_states := none,
            shape_of_inputs := [3], preprocessor := none }
          (.Box [3]) (5 : Nat)).1 (.scalar 7) = .ok a ∧
      a.shape = [2] ∧ a.data.length = 2 ∧
      a.data[(1 : Int).toNat]? = some 1 ∧
      ∀ j : Nat, j < 2 → j ≠ (1 : Int).toNat → a.data[j]? = some 0 :=
  (C4_discretize_box_then_one_hot
    (fun _ _ => { num_states := 2, discretize := fun _ => 1 })
    { num_actions := 2, space_discretizer := none,
      discrete_observation_space := false, num_states := none,
      shape_of_inputs := [3], preprocessor := none }
    [3] 5 { num_states := 2, discretize := fun _ => 1 } rfl rfl).2
    (.scalar 7) 1 rfl (by decide) (by decide)

/-- Claim C7: the configuration invariant (`_num_states` defined iff
`_discrete_observation_space` is true, and `_shape_of_inputs`
`= (num_states,)` whenever `_num_states` is defined) is established by
the constructor and preserved by `_discretize_observation_space`, on both
its success and its error path. -/
theorem C7_config_invariant :
    (∀ (o_space a_space : Space) (cfg : Config),
      init o_space a_space = .ok cfg → configInvariant cfg) ∧
    (∀ (Res : Type) (mk : Space → Res → BoxSpaceDiscretizer)
        (cfg : Config) (space : Space) (res : Res),
      configInvariant cfg →
      configInvariant (discretizeObservationSpace mk cfg space res).1) := by
  constructor
  · intro o a cfg hcfg
    cases a with
    | Discrete na =>
      cases o with
      | Discrete n =>
        rw [init_discrete] at hcfg; cases hcfg
        exact ⟨by simp, fun k hk => by cases hk; rfl⟩
      | MultiBinary n =>
        rw [init_multibinary] at hcfg; cases hcfg
        exact ⟨by simp, fun k hk => by cases hk⟩
      | Box s =>
        rw [init_box] at hcfg; cases hcfg
        exact ⟨by simp, fun k hk => by cases hk⟩
      | MultiDiscrete s =>
        rw [init_multidiscrete] at hcfg; cases hcfg
        exact ⟨by simp, fun k hk => by cases hk⟩
      | TupleSpace s t => exact absurd hcfg (by simp [init])
    | MultiBinary n => exact absurd hcfg (by simp [init])
    | Box s => exact absurd hcfg (by simp [init])
    | MultiDiscrete s => exact absurd hcfg (by simp [init])
    | TupleSpace s t => exact absurd hcfg (by simp [init])
  · intro Res mk cfg space res hinv
    cases space with
    | Box s => exact ⟨by simp [discretizeObservationSpace], fun k hk => by cases hk; rfl⟩
    | Discrete n => exact hinv
    | MultiBinary n => exact hinv
    | MultiDiscrete s => exact hinv
    | TupleSpace s t => exact hinv

theorem C7_config_invariant_witness :
    configInvariant
      { num_actions := 2, space_discretizer := none,
        discrete_observation_space := true, num_states := some 3,
        shape_of_inputs := [3], preprocessor := none } ∧
    configInvariant
      (discretizeObservationSpace
        (fun _ _ => { num_states := 4, discretize := fun _ => 0 })
        { num_actions := 2, space_discretizer := none,
          discrete_observation_space := true, num_states := some 3,
          shape_of_inputs := [3], preprocessor := none }
        (.Box [2]) (1 : Nat)).1 :=
  ⟨C7_config_invariant.1 (.Discrete 3) (.Discrete 2)
    { num_actions := 2, space_discretizer := none,
      discrete_observation_space := true, num_states := some 3,
      shape_of_inputs := [3], preprocessor := none } rfl,
   C7_config_invariant.2 Nat
    (fun _ _ => { num_states := 4, discretize := fun _ => 0 })
    { num_actions := 2, space_discretizer := none,
      discrete_observation_space := true, num_states := some 3,
      shape_of_inputs := [3], preprocessor := none }
    (.Box [2]) 1
    (C7_config_invariant.1 (.Discrete 3) (.Discrete 2)
      { num_actions := 2, space_discretizer := none,
        discrete_observation_space := true, num_states := some 3,
        shape_of_inputs := [3], preprocessor := none } rfl)⟩

/-- Claim C8: `_discretize_observation_space` on a non-Box space raises
the invalid-configuration error before assigning anything, so the whole
configuration (in particular `_space_discretizer`,
`_discrete_observation_space`, `_num_states`, `_shape_of_inputs`) is left
exactly as it was: the mutation is atomic. -/
theorem C8_discretize_non_box_error_atomic {Res : Type}
    (mk : Space → Res → BoxSpaceDiscretizer) (cfg : Config)
    (space : Space) (res : Res) (h : ∀ sh, space ≠ .Box sh) :
    discretizeObservationSpace mk cfg space res =
      (cfg, some (.unsupportedDiscretizationSpace space)) := by
  cases space with
  | Box s => exact absurd rfl (h s)
  | Discrete n => rfl
  | MultiBinary n => rfl
  | MultiDiscrete s => rfl
  | TupleSpace s t => rfl

theorem C8_discretize_non_box_error_atomic_witness :
    discretizeObservationSpace
      (fun _ _ => { num_states := 1, discretize := fun _ => 0 })
      { num_actions := 2, space_discretizer := none,
        discrete_observation_space := true, num_states := some 4,
        shape_of_inputs := [4], preprocessor := none }
      (.Discrete 4) (3 : Nat) =
      ({ num_actions := 2, space_discretizer := none,
         discrete_observation_space := true, num_states := some 4,
         shape_of_inputs := [4], preprocessor := none },
       some (.unsupportedDiscretizationSpace (.Discrete 4))) :=
  C8_discretize_non_box_error_atomic
    (fun _ _ => { num_states := 1, discretize := fun _ => 0 })
    { num_actions := 2, space_discretizer := none,
      discrete_observation_space := true, num_states := some 4,
      shape_of_inputs := [4], preprocessor := none }
    (.Discrete 4) 3
    (fun _ hc => Space.noConfusion hc)

end AgentBaseClass

end CNTKDeepRL
